import Mathlib

/-!
Verification of the `django-tools` loaders: a shallow embedding of
`loaders/loadAIKB.py` (class `AIKnowledgeBaseLoader`) and
`loaders/loadAllFixtures.py` (`load_fixtures`), with theorems about their
URL reconciliation, ingestion-job polling, data-source create/update flow
and signal-handler discipline.

File system contents, the boto3 `bedrock-agent` client and Django are
modelled as an explicit environment (`Env`): each remote call's outcome is
a field of the environment, and the remote mutations actually issued by a
run are collected in an explicit effect trace.
-/

/-! ## Python string primitives used by the loader -/

/-- Whitespace characters stripped by Python's `str.strip()` (the ASCII
subset, which is all that occurs in URL fixture data). -/
def isPySpace (c : Char) : Bool :=
  c = ' ' || c = '\t' || c = '\n' || c = '\r' || c = '\x0b' || c = '\x0c'

/-- Model of Python `str.strip()`: drop leading and trailing whitespace. -/
def pyStrip (s : String) : String :=
  ⟨((s.data.dropWhile isPySpace).reverse.dropWhile isPySpace).reverse⟩

/-- Does `cs` start with the pattern `pat`? -/
def listStartsWith : List Char → List Char → Bool
  | [], _ => true
  | _ :: _, [] => false
  | p :: ps, c :: cs => p == c && listStartsWith ps cs

/-- Does `cs` contain `pat` as a contiguous run?  Models `re.search` for a
pattern with no metacharacters (all the loader's patterns are literal after
unescaping). -/
def containsSub (pat : List Char) : List Char → Bool
  | [] => listStartsWith pat []
  | c :: cs => listStartsWith pat (c :: cs) || containsSub pat cs

/-- Lower-case a character list (ASCII, as in `re.IGNORECASE` over the
loader's ASCII patterns). -/
def lowerChars (cs : List Char) : List Char := cs.map Char.toLower

/-- Case-insensitive substring test: models
`re.search(pat, s, re.IGNORECASE)` for a literal pattern. -/
def containsCI (pat : String) (s : String) : Bool :=
  containsSub (lowerChars pat.data) (lowerChars s.data)

/-! ## Model of `urllib.parse.urlparse`, restricted to what the loader reads

`_validate_and_clean_urls` only inspects `parsed.scheme` and
`parsed.netloc`.  CPython's `urlsplit` (a) first removes the unsafe bytes
tab, CR, LF from the URL; (b) recognises a scheme when the first `:` is
preceded by a non-empty run of scheme characters starting with an ASCII
letter; (c) when the remainder starts with `//`, takes the netloc up to the
next `/`, `?` or `#`, and raises `ValueError("Invalid IPv6 URL")` when that
netloc contains `[` without `]` or `]` without `[`. -/

/-- Characters permitted in a URL scheme (`scheme_chars` in CPython). -/
def isSchemeChar (c : Char) : Bool :=
  c.isAlpha || c.isDigit || c = '+' || c = '-' || c = '.'

/-- Split off the scheme, as CPython `urlsplit` does: if the first `:` is
preceded by a valid non-empty scheme, return (lower-cased scheme, text
after the colon); otherwise no scheme, and the whole input remains. -/
def splitScheme (cs : List Char) : List Char × List Char :=
  match cs.span (fun c => c != ':') with
  | (pre, rest) =>
    match rest with
    | ':' :: tail =>
      match pre with
      | [] => ([], cs)
      | c0 :: _ => if c0.isAlpha && pre.all isSchemeChar then (lowerChars pre, tail) else ([], cs)
    | _ => ([], cs)

/-- Netloc extraction: everything up to the next `/`, `?` or `#`. -/
def splitNetloc (cs : List Char) : List Char :=
  cs.takeWhile (fun c => !(c == '/' || c == '?' || c == '#'))

/-- Model of `urlparse`, returning the `(scheme, netloc)` pair the loader
inspects, or the `ValueError` CPython raises on an unbalanced square
bracket in the netloc. -/
def urlparseModel (s : String) : Except String (List Char × List Char) :=
  let cs := s.data.filter (fun c => !(c == '\t' || c == '\r' || c == '\n'))
  let p := splitScheme cs
  match p.2 with
  | '/' :: '/' :: t =>
    let netloc := splitNetloc t
    if (netloc.contains '[' && !netloc.contains ']') ||
       (netloc.contains ']' && !netloc.contains '[') then
      Except.error "Invalid IPv6 URL"
    else Except.ok (p.1, netloc)
  | _ => Except.ok (p.1, [])

/-! ## `_validate_and_clean_urls` -/

/-- One recorded URL-quality issue (the loader records them as message
strings; the position is the 0-based loop index). -/
inductive UrlIssue where
  | emptyUrl (pos : Nat)
  | invalidFormat (pos : Nat)
  | veryLong (pos : Nat)
  | suspicious (pos : Nat)
  deriving DecidableEq, Repr

/-- The `suspicious_patterns` list of `_validate_and_clean_urls`, with the
regex escapes resolved (every pattern is literal). -/
def suspiciousPatterns : List String :=
  ["localhost", "127.0.0.1", ".local", "test.", "staging.", "dev."]

/-- Does any suspicious pattern occur in the URL (case-insensitive)? -/
def isSuspicious (s : String) : Bool :=
  suspiciousPatterns.any (fun p => containsCI p s)

/-- The body of `_validate_and_clean_urls` from loop index `i` on: strip
each URL; record an issue and drop it when empty or missing scheme/netloc;
record an issue but keep it when over 200 characters or matching a
suspicious pattern.  A `ValueError` from `urlparse` propagates (`.error`),
aborting the whole validation. -/
def validateFrom (i : Nat) : List String → Except String (List String × List UrlIssue)
  | [] => Except.ok ([], [])
  | u :: us =>
    let c := pyStrip u
    if c = "" then
      match validateFrom (i + 1) us with
      | Except.error e => Except.error e
      | Except.ok (vs, iss) => Except.ok (vs, UrlIssue.emptyUrl i :: iss)
    else
      match urlparseModel c with
      | Except.error e => Except.error e
      | Except.ok (scheme, netloc) =>
        if scheme.isEmpty || netloc.isEmpty then
          match validateFrom (i + 1) us with
          | Except.error e => Except.error e
          | Except.ok (vs, iss) => Except.ok (vs, UrlIssue.invalidFormat i :: iss)
        else
          let longIss := if c.length > 200 then [UrlIssue.veryLong i] else []
          let suspIss := if isSuspicious c then [UrlIssue.suspicious i] else []
          match validateFrom (i + 1) us with
          | Except.error e => Except.error e
          | Except.ok (vs, iss) => Except.ok (c :: vs, longIss ++ suspIss ++ iss)

/-- `_validate_and_clean_urls(urls)`: returns `(valid_urls, issues_found)`,
or the propagated `urlparse` exception. -/
def validateAndCleanUrls (urls : List String) : Except String (List String × List UrlIssue) :=
  validateFrom 0 urls

/-- Does a stripped, non-empty URL survive validation?  True iff `urlparse`
succeeds and yields both a scheme and a netloc. -/
def keptAfterParse (c : String) : Bool :=
  match urlparseModel c with
  | Except.error _ => false
  | Except.ok (scheme, netloc) => !scheme.isEmpty && !netloc.isEmpty

/-- The per-URL keep predicate of `_validate_and_clean_urls` applied to an
already-stripped URL. -/
def keepsCleanUrl (c : String) : Bool := c != "" && keptAfterParse c

/-- Does `urlparse` raise on this (stripped) URL? -/
def urlRaises (c : String) : Bool :=
  match urlparseModel c with
  | Except.error _ => true
  | Except.ok _ => false

/-! ## `_deduplicate_urls` -/

/-- The loader's dedup loop with its `seen` set (modelled as a list, of
which only membership is used). -/
def dedupAux (seen : List String) : List String → List String
  | [] => []
  | u :: us => if u ∈ seen then dedupAux seen us else u :: dedupAux (u :: seen) us

/-- `_deduplicate_urls(all_urls)`: remove duplicates preserving first-seen
order. -/
def deduplicate_urls (urls : List String) : List String := dedupAux [] urls

/-- Total character count of the final URL list (`sum(len(url) ...)`). -/
def totalChars (urls : List String) : Nat := (urls.map String.length).sum

/-! ## `_wait_for_ingestion_completion` -/

/-- Result of one `get_ingestion_job` call: either the service raised, or
it returned a status string together with `failureReasons` (`[]` when the
response carries none). -/
inductive QueryResult where
  | queryError (msg : String)
  | queryOk (status : String) (failureReasons : List String)
  deriving DecidableEq, Repr

/-- Is this query result one of the two terminal statuses? -/
def QueryResult.isTerminal : QueryResult → Bool
  | QueryResult.queryError _ => false
  | QueryResult.queryOk st _ => st == "COMPLETE" || st == "FAILED"

/-- Exit of the poll loop, instrumented with the exit path.  The Python
function returns the boolean `WaitOutcome.toBool`; `timedOut` and
`failedStatus` both map to `False`. -/
inductive WaitOutcome where
  | completed
  | failedStatus (reasons : List String)
  | timedOut
  deriving DecidableEq, Repr

/-- The boolean the Python function actually returns. -/
def WaitOutcome.toBool : WaitOutcome → Bool
  | WaitOutcome.completed => true
  | _ => false

/-- The decision the loop body takes on one query result: the
`if status == 'COMPLETE' / elif status == 'FAILED' / else sleep-and-retry`
chain of the source, with `cont` the result of continuing the loop after
the 30-second sleep (a service exception also falls to `cont`). -/
def stepOutcome (q : QueryResult) (cont : WaitOutcome) : WaitOutcome :=
  match q with
  | QueryResult.queryError _ => cont
  | QueryResult.queryOk st rs =>
    if st = "COMPLETE" then WaitOutcome.completed
    else if st = "FAILED" then WaitOutcome.failedStatus rs
    else cont

/-- The poll loop of `_wait_for_ingestion_completion`, with time made
explicit: only the 30-second sleeps consume time, so the `k`-th status
query happens at elapsed time `30 * k` and the `while` guard is
`30 * k < timeoutSecs`.  `query k` is the outcome of the `k`-th
`get_ingestion_job` call.  `COMPLETE` returns success; `FAILED` returns
failure with the reasons; any other status (`IN_PROGRESS`, `STARTING` or
unknown) and any exception from the service sleep 30 seconds and poll
again.  `fuel` is a structural-recursion bound, irrelevant whenever
`timeoutSecs ≤ 30 * (k + fuel)` (see `waitFrom_fuel_irrelevant`). -/
def waitFrom (query : Nat → QueryResult) (timeoutSecs : Nat) : Nat → Nat → WaitOutcome
  | _, 0 => WaitOutcome.timedOut
  | k, fuel + 1 =>
    if 30 * k < timeoutSecs then
      stepOutcome (query k) (waitFrom query timeoutSecs (k + 1) fuel)
    else WaitOutcome.timedOut

/-- `_wait_for_ingestion_completion(job_id, timeout_minutes=20)`: start the
poll loop at elapsed time 0.  `timeoutMinutes * 60` iterations are enough
fuel, since each loop step consumes 30 seconds. -/
def waitForIngestionCompletion (query : Nat → QueryResult) (timeoutMinutes : Nat) : WaitOutcome :=
  waitFrom query (timeoutMinutes * 60) 0 (timeoutMinutes * 60)

/-! ## Data-source configuration and the remote environment -/

/-- The parts of a `webConfiguration` the loader touches: the nested
`sourceConfiguration.urlConfiguration.seedUrls` list (each entry is
`{'url': url}`, modelled as the URL string), plus an opaque remainder
(`crawlerConfiguration` and any sibling keys) that the loader never
modifies. -/
structure WebConfiguration where
  seedUrls : List String
  rest : String
  deriving DecidableEq, Repr

/-- A `dataSourceConfiguration` dict: its `type` discriminator, the
optional `webConfiguration`, and an opaque remainder of other keys. -/
structure DataSourceConfiguration where
  dsType : String
  webConfiguration : Option WebConfiguration
  rest : String
  deriving DecidableEq, Repr

/-- The fields of a `get_data_source` response the loader reads
(`name` and `description` are read with `.get`, hence optional). -/
structure RemoteDataSource where
  name : Option String
  description : Option String
  config : DataSourceConfiguration
  deriving DecidableEq, Repr

/-- A remote mutation issued against the Bedrock agent service.  Read-only
calls (`list_data_sources`, `get_data_source`, `get_ingestion_job`) are not
mutations and are not recorded. -/
inductive Effect where
  | createDS (name : String) (seedUrls : List String)
  | updateDS (name : String) (description : String) (config : DataSourceConfiguration)
  | startJob (dataSourceId : String)
  deriving DecidableEq, Repr

/-- The environment of one `load_catalogue` run: the file-system facts the
loader tests, the URL lists its two `_load_catalogue_urls` calls produce,
and the outcome of each remote service call (`Except.error` meaning the
call raised). -/
structure Env where
  catalogueName : String
  catDirExists : Bool
  baseDirExists : Bool
  baseUrls : List String
  catUrls : List String
  listDataSources : Except String (List (String × String))
  createDataSource : Except String String
  getDataSource : Except String RemoteDataSource
  updateFirst : Except String Unit
  updateSecond : Except String Unit
  startJobResult : Except String String
  jobQuery : Nat → QueryResult

/-- The deterministic data-source name `fixtures-{catalogue}-kb-source`. -/
def dataSourceNameOf (env : Env) : String :=
  "fixtures-" ++ env.catalogueName ++ "-kb-source"

/-- `_find_data_source_by_name`: list the knowledge base's data sources and
return the first summary whose name matches; an exception from
`list_data_sources` is caught, logged and turned into `None`. -/
def findDataSourceByName (env : Env) (nm : String) : Option String :=
  match env.listDataSources with
  | Except.error _ => none
  | Except.ok summaries => (summaries.find? (fun p => p.1 == nm)).map (fun p => p.2)

/-- The concatenated raw URL list of `load_catalogue` /
`_create_catalogue_data_source`: base URLs first when the base fixtures
directory exists and the catalogue is not itself `base`, then the
catalogue-specific URLs. -/
def allUrlsOf (env : Env) : List String :=
  (if env.baseDirExists && env.catalogueName != "base" then env.baseUrls else []) ++ env.catUrls

/-- Validate then deduplicate the concatenated URL list (the shared
computation of `load_catalogue` and `_create_catalogue_data_source`). -/
def reconcileOf (env : Env) : Except String (List String) :=
  match validateAndCleanUrls (allUrlsOf env) with
  | Except.error e => Except.error e
  | Except.ok (vs, _) => Except.ok (deduplicate_urls vs)

/-- `_create_catalogue_data_source`: recompute the reconciled URL list,
raise before any remote call when the 3000-character budget is exceeded
(or when validation raises), otherwise issue `create_data_source`; a
service exception propagates after the call was issued. -/
def createCatalogueDataSource (env : Env) : Except Unit String × List Effect :=
  match reconcileOf env with
  | Except.error _ => (Except.error (), [])
  | Except.ok finalUrls =>
    if totalChars finalUrls > 3000 then (Except.error (), [])
    else
      match env.createDataSource with
      | Except.error _ => (Except.error (), [Effect.createDS (dataSourceNameOf env) finalUrls])
      | Except.ok dsId => (Except.ok dsId, [Effect.createDS (dataSourceNameOf env) finalUrls])

/-- `_get_or_create_catalogue_data_source`: reuse the data source found by
name, otherwise create one (its own `except` clause only logs and
re-raises). -/
def getOrCreateCatalogueDataSource (env : Env) : Except Unit String × List Effect :=
  match findDataSourceByName env (dataSourceNameOf env) with
  | some dsId => (Except.ok dsId, [])
  | none => createCatalogueDataSource env

/-- `_update_data_source_urls(urls)`: fetch the current configuration,
replace only the seed-URL sub-structure, and resubmit with the name
preserved and ` - Updated {catalogue} URLs` appended to the description.
When the first `update_data_source` raises with
`vectorIngestionConfiguration` in the message, a second call is issued
with the very same arguments (the source prints that it retries without
`vectorIngestionConfiguration`, but removes nothing: `current_config` was
mutated in place before the first call and is passed unchanged again); the
second call's own outcome is caught and only logged.  Every other failure,
including `get_data_source` raising or a non-web data source, is caught by
the outer `except`, which logs and returns.  The returned list is the
trace of `update_data_source` calls issued. -/
def updateDataSourceUrls (env : Env) (urls : List String) : List Effect :=
  match env.getDataSource with
  | Except.error _ => []
  | Except.ok ds =>
    match ds.config.webConfiguration with
    | none => []
    | some web =>
      if ds.config.dsType == "WEB" then
        let newCfg : DataSourceConfiguration :=
          { ds.config with webConfiguration := some { web with seedUrls := urls } }
        let nm := ds.name.getD ("fixtures-" ++ env.catalogueName ++ "-kb-source")
        let desc := ds.description.getD "Catalogue-specific data source"
                      ++ " - Updated " ++ env.catalogueName ++ " URLs"
        match env.updateFirst with
        | Except.ok _ => [Effect.updateDS nm desc newCfg]
        | Except.error msg =>
          if containsSub "vectorIngestionConfiguration".data msg.data then
            [Effect.updateDS nm desc newCfg, Effect.updateDS nm desc newCfg]
          else
            [Effect.updateDS nm desc newCfg]
      else []

/-- Outcome of `load_catalogue`: returned `True`, returned `False`, or let
an exception escape (which `load_ai_knowledge_base` turns into a non-zero
exit). -/
inductive LoadOutcome where
  | ok
  | retFalse
  | raised
  deriving DecidableEq, Repr

/-- `load_catalogue`, returning its outcome together with the trace of
remote mutations issued.  Mirrors the source order: existence check of the
catalogue directory; `_get_or_create_catalogue_data_source`; concatenation
of base and catalogue URLs; the `if all_urls:` guard (the "No URLs found"
return); validation and deduplication; the 3000-character budget check;
`_update_data_source_urls`; `_start_ingestion_job`;
`_wait_for_ingestion_completion` with the default 20-minute timeout.
`_load_django_fixtures` swallows every exception and performs no remote
mutation, so it does not affect outcome or trace. -/
def load_catalogue (env : Env) : LoadOutcome × List Effect :=
  if env.catDirExists then
    match getOrCreateCatalogueDataSource env with
    | (Except.error _, effs) => (LoadOutcome.raised, effs)
    | (Except.ok dsId, effs) =>
      let allUrls := allUrlsOf env
      if allUrls.isEmpty then (LoadOutcome.retFalse, effs)
      else
        match validateAndCleanUrls allUrls with
        | Except.error _ => (LoadOutcome.raised, effs)
        | Except.ok (vs, _) =>
          let finalUrls := deduplicate_urls vs
          if totalChars finalUrls > 3000 then (LoadOutcome.retFalse, effs)
          else
            let effsU := updateDataSourceUrls env finalUrls
            match env.startJobResult with
            | Except.error _ => (LoadOutcome.raised, effs ++ effsU ++ [Effect.startJob dsId])
            | Except.ok _ =>
              if (waitForIngestionCompletion env.jobQuery 20).toBool then
                (LoadOutcome.ok, effs ++ effsU ++ [Effect.startJob dsId])
              else (LoadOutcome.retFalse, effs ++ effsU ++ [Effect.startJob dsId])
  else (LoadOutcome.retFalse, [])

/-! ## Signal handlers around Django fixture loads -/

/-- Connection state of the three audit-trail signal handlers. -/
structure SignalState where
  preSaveConnected : Bool
  postSaveConnected : Bool
  postDeleteConnected : Bool
  deriving DecidableEq, Repr

/-- All three handlers connected (the module-level state Django sets up). -/
def SignalState.allConnected : SignalState := ⟨true, true, true⟩

/-- Effect of the three `disconnect` calls. -/
def disconnectAll (_s : SignalState) : SignalState := ⟨false, false, false⟩

/-- Effect of the three `connect` calls. -/
def connectAll (_s : SignalState) : SignalState := ⟨true, true, true⟩

/-- The `loaddata` loop: run the fixtures in order; the first one that
raises aborts the loop with that exception. -/
def runLoaddataLoop (raises : String → Bool) : List String → Except String Unit
  | [] => Except.ok ()
  | f :: fs => if raises f then Except.error f else runLoaddataLoop raises fs

/-- Insertion of one string into a sorted list (lexicographic, as Python's
`list.sort` on strings). -/
def insertSorted (x : String) : List String → List String
  | [] => [x]
  | y :: ys => if x ≤ y then x :: y :: ys else y :: insertSorted x ys

/-- Sorting model for Python's `list.sort()` on file names. -/
def sortStrings : List String → List String
  | [] => []
  | x :: xs => insertSorted x (sortStrings xs)

/-- `_load_django_fixtures_from_dir(directory, dir_name)` from
`loadAIKB.py`, tracking only the signal state: `listing` is the outcome of
`os.listdir`; `raises f` says whether `call_command('loaddata', f)` raises.
The handlers are disconnected only when the filtered `django_*.json` list
is non-empty; the `loaddata` loop runs inside `try:` with a `finally:`
that reconnects all three handlers; the enclosing `except` then swallows
any exception (including one from `os.listdir`, which occurs before any
disconnect). -/
def loadDjangoFixturesFromDir (listing : Except String (List String))
    (raises : String → Bool) (s : SignalState) : SignalState :=
  match listing with
  | Except.error _ => s
  | Except.ok files =>
    let djangoFixtures := files.filter (fun f => f.endsWith ".json" && f.startsWith "django_")
    if djangoFixtures.isEmpty then s
    else
      let s1 := disconnectAll s
      let _loopResult := runLoaddataLoop raises (sortStrings djangoFixtures)
      connectAll s1

/-- The fixture stems skipped by `loadAllFixtures.py`. -/
def skip_fixtures : List String :=
  ["blueprint", "colors", "permissions", "ato_status_choices",
   "months", "risk_level_choices", "controlset_types", "audittrail", "widgets",
   "support_case_request_types"]

/-- The stem `f.split('.')[0]` of a file name. -/
def stemOf (f : String) : String := (f.splitOn ".").headD f

/-- `load_fixtures()` from `loadAllFixtures.py`, tracking the signal state
and the exception (if any) that escapes: the three handlers are
disconnected first, unconditionally; `os.listdir`, filtering, sorting and
the `loaddata` loop all run inside `try:`; the `finally:` reconnects all
three handlers; with no enclosing `except`, an exception then propagates
to the caller. -/
def load_fixtures (listing : Except String (List String))
    (raises : String → Bool) (s : SignalState) : SignalState × Except String Unit :=
  let s1 := disconnectAll s
  let body : Except String Unit :=
    match listing with
    | Except.error e => Except.error e
    | Except.ok files =>
      let fixtureFiles := files.filter
        (fun f => f.endsWith ".json" && !(skip_fixtures.contains (stemOf f)))
      runLoaddataLoop raises (sortStrings fixtureFiles)
  (connectAll s1, body)

/-! ## Properties of `_deduplicate_urls` -/

/-- Membership in the dedup loop's output: exactly the input elements not
already in the `seen` accumulator. -/
theorem mem_dedupAux (x : String) (l : List String) :
    ∀ seen, x ∈ dedupAux seen l ↔ (x ∈ l ∧ x ∉ seen) := by
  induction l with
  | nil => intro seen; simp [dedupAux]
  | cons u us ih =>
    intro seen
    by_cases h : u ∈ seen
    · rw [dedupAux, if_pos h, ih seen]
      simp only [List.mem_cons]
      constructor
      · rintro ⟨h1, h2⟩; exact ⟨Or.inr h1, h2⟩
      · rintro ⟨h1 | h1, h2⟩
        · subst h1; exact absurd h h2
        · exact ⟨h1, h2⟩
    · rw [dedupAux, if_neg h]
      simp only [List.mem_cons, ih (u :: seen), List.mem_cons]
      by_cases hxu : x = u
      · subst hxu; simp [h]
      · tauto

/-- The dedup loop's output is a sublist of its input (order preserved). -/
theorem dedupAux_sublist (l : List String) : ∀ seen, (dedupAux seen l).Sublist l := by
  induction l with
  | nil => intro seen; simp [dedupAux]
  | cons u us ih =>
    intro seen
    by_cases h : u ∈ seen
    · rw [dedupAux, if_pos h]
      exact (ih seen).cons u
    · rw [dedupAux, if_neg h]
      exact (ih (u :: seen)).cons₂ u

/-- The dedup loop's output has no duplicates. -/
theorem dedupAux_nodup (l : List String) : ∀ seen, (dedupAux seen l).Nodup := by
  induction l with
  | nil => intro seen; simp [dedupAux]
  | cons u us ih =>
    intro seen
    by_cases h : u ∈ seen
    · rw [dedupAux, if_pos h]; exact ih seen
    · rw [dedupAux, if_neg h]
      refine List.nodup_cons.mpr ⟨fun hmem => ?_, ih (u :: seen)⟩
      exact ((mem_dedupAux u us (u :: seen)).mp hmem).2 (List.mem_cons_self u seen)

/-- The dedup loop lists elements in strictly increasing order of their
first occurrence in the input (`List.indexOf` is the index of the first
occurrence), i.e. each URL is kept at its first occurrence. -/
theorem dedupAux_pairwise_indexOf (l : List String) :
    ∀ seen, (dedupAux seen l).Pairwise (fun a b => l.indexOf a < l.indexOf b) := by
  induction l with
  | nil => intro seen; simp [dedupAux]
  | cons u us ih =>
    intro seen
    by_cases h : u ∈ seen
    · rw [dedupAux, if_pos h]
      refine (ih seen).imp_of_mem ?_
      intro a b ha hb hlt
      have hau : u ≠ a := fun e => ((mem_dedupAux a us seen).mp ha).2 (e ▸ h)
      have hbu : u ≠ b := fun e => ((mem_dedupAux b us seen).mp hb).2 (e ▸ h)
      rw [List.indexOf_cons_ne us hau, List.indexOf_cons_ne us hbu]
      omega
    · rw [dedupAux, if_neg h]
      refine List.pairwise_cons.mpr ⟨fun b hb => ?_, ?_⟩
      · have hbu : u ≠ b := fun e =>
          ((mem_dedupAux b us (u :: seen)).mp hb).2 (e ▸ List.mem_cons_self u seen)
        rw [List.indexOf_cons_self, List.indexOf_cons_ne us hbu]
        omega
      · refine (ih (u :: seen)).imp_of_mem ?_
        intro a b ha hb hlt
        have hau : u ≠ a := fun e =>
          ((mem_dedupAux a us (u :: seen)).mp ha).2 (e ▸ List.mem_cons_self u seen)
        have hbu : u ≠ b := fun e =>
          ((mem_dedupAux b us (u :: seen)).mp hb).2 (e ▸ List.mem_cons_self u seen)
        rw [List.indexOf_cons_ne us hau, List.indexOf_cons_ne us hbu]
        omega

/-! ## Properties of `_validate_and_clean_urls` -/

/-- When validation returns normally, the kept list is exactly the stripped
input filtered by the per-URL keep predicate: a URL is dropped if and only
if its stripped form is empty or lacks a scheme or a netloc; order is
preserved. -/
theorem validateFrom_ok_eq (l : List String) : ∀ (i : Nat) (vs : List String) (iss : List UrlIssue),
    validateFrom i l = Except.ok (vs, iss) → vs = (l.map pyStrip).filter keepsCleanUrl := by
  induction l with
  | nil =>
    intro i vs iss h
    simp only [validateFrom, Except.ok.injEq, Prod.mk.injEq] at h
    simp [← h.1]
  | cons u us ih =>
    intro i vs iss h
    simp only [validateFrom] at h
    by_cases hc : pyStrip u = ""
    · rw [if_pos hc] at h
      cases hrec : validateFrom (i + 1) us with
      | error e => rw [hrec] at h; exact absurd h (by simp)
      | ok p =>
        obtain ⟨vs', iss'⟩ := p
        rw [hrec] at h
        simp only [Except.ok.injEq, Prod.mk.injEq] at h
        obtain ⟨h1, _⟩ := h
        subst h1
        have hkeep : keepsCleanUrl (pyStrip u) = false := by simp [keepsCleanUrl, hc]
        simp only [List.map_cons, List.filter_cons, hkeep, if_false, Bool.false_eq_true]
        exact ih (i + 1) vs' iss' hrec
    · rw [if_neg hc] at h
      cases hp : urlparseModel (pyStrip u) with
      | error e => rw [hp] at h; exact absurd h (by simp)
      | ok pr =>
        obtain ⟨scheme, netloc⟩ := pr
        rw [hp] at h
        simp only at h
        by_cases hsn : (scheme.isEmpty || netloc.isEmpty) = true
        · rw [if_pos hsn] at h
          cases hrec : validateFrom (i + 1) us with
          | error e => rw [hrec] at h; exact absurd h (by simp)
          | ok p =>
            obtain ⟨vs', iss'⟩ := p
            rw [hrec] at h
            simp only [Except.ok.injEq, Prod.mk.injEq] at h
            obtain ⟨h1, _⟩ := h
            subst h1
            have hkeep : keepsCleanUrl (pyStrip u) = false := by
              simp only [keepsCleanUrl, keptAfterParse, hp]
              have hsn' : scheme.isEmpty = true ∨ netloc.isEmpty = true := by simpa using hsn
              rcases hsn' with he | he <;> simp [he]
            simp only [List.map_cons, List.filter_cons, hkeep, if_false, Bool.false_eq_true]
            exact ih (i + 1) vs' iss' hrec
        · rw [if_neg hsn] at h
          cases hrec : validateFrom (i + 1) us with
          | error e => rw [hrec] at h; exact absurd h (by simp)
          | ok p =>
            obtain ⟨vs', iss'⟩ := p
            rw [hrec] at h
            simp only [Except.ok.injEq, Prod.mk.injEq] at h
            obtain ⟨h1, _⟩ := h
            subst h1
            have hkeep : keepsCleanUrl (pyStrip u) = true := by
              simp only [keepsCleanUrl, keptAfterParse, hp]
              have h1 : scheme.isEmpty = false := by
                cases hs : scheme.isEmpty
                · rfl
                · exact absurd (by simp [hs]) hsn
              have h2 : netloc.isEmpty = false := by
                cases hs : netloc.isEmpty
                · rfl
                · exact absurd (by simp [hs]) hsn
              simp [hc, h1, h2]
            simp only [List.map_cons, List.filter_cons, hkeep, if_true]
            rw [ih (i + 1) vs' iss' hrec]

/-- When no URL makes `urlparse` raise, validation returns normally, and
every kept URL that is over 200 characters, or that matches a suspicious
pattern, has a corresponding issue recorded at its loop index. -/
theorem validateFrom_issues (l : List String) : ∀ (i : Nat),
    (∀ u ∈ l, urlRaises (pyStrip u) = false) →
    ∃ vs iss, validateFrom i l = Except.ok (vs, iss) ∧
      ∀ j u, l[j]? = some u → keepsCleanUrl (pyStrip u) = true →
        ((pyStrip u).length > 200 → UrlIssue.veryLong (i + j) ∈ iss) ∧
        (isSuspicious (pyStrip u) = true → UrlIssue.suspicious (i + j) ∈ iss) := by
  induction l with
  | nil =>
    intro i _
    refine ⟨[], [], rfl, ?_⟩
    intro j u hj
    simp at hj
  | cons u us ih =>
    intro i hok
    obtain ⟨vs', iss', hrec, hflags⟩ := ih (i + 1) (fun v hv => hok v (List.mem_cons_of_mem _ hv))
    by_cases hc : pyStrip u = ""
    · refine ⟨vs', UrlIssue.emptyUrl i :: iss', ?_, ?_⟩
      · simp only [validateFrom]
        rw [if_pos hc, hrec]
      · intro j v hj hkeep
        cases j with
        | zero =>
          rw [List.getElem?_cons_zero, Option.some_inj] at hj
          subst hj
          rw [hc] at hkeep
          exact absurd hkeep (by simp [keepsCleanUrl])
        | succ j' =>
          rw [List.getElem?_cons_succ] at hj
          have hf := hflags j' v hj hkeep
          have hidx : (i + 1) + j' = i + (j' + 1) := by omega
          rw [hidx] at hf
          exact ⟨fun hl => List.mem_cons_of_mem _ (hf.1 hl),
                 fun hs => List.mem_cons_of_mem _ (hf.2 hs)⟩
    · have hnr : urlRaises (pyStrip u) = false := hok u (List.mem_cons_self u us)
      cases hp : urlparseModel (pyStrip u) with
      | error e =>
        exfalso
        rw [urlRaises, hp] at hnr
        exact absurd hnr (by simp)
      | ok pr =>
        obtain ⟨scheme, netloc⟩ := pr
        by_cases hsn : (scheme.isEmpty || netloc.isEmpty) = true
        · refine ⟨vs', UrlIssue.invalidFormat i :: iss', ?_, ?_⟩
          · simp only [validateFrom]
            rw [if_neg hc, hp]
            simp only []
            rw [if_pos hsn, hrec]
          · intro j v hj hkeep
            cases j with
            | zero =>
              rw [List.getElem?_cons_zero, Option.some_inj] at hj
              subst hj
              exfalso
              simp only [keepsCleanUrl, keptAfterParse, hp, Bool.and_eq_true, bne_iff_ne] at hkeep
              have hsn' : scheme.isEmpty = true ∨ netloc.isEmpty = true := by simpa using hsn
              rcases hsn' with he | he <;> rw [he] at hkeep <;> simp at hkeep
            | succ j' =>
              rw [List.getElem?_cons_succ] at hj
              have hf := hflags j' v hj hkeep
              have hidx : (i + 1) + j' = i + (j' + 1) := by omega
              rw [hidx] at hf
              exact ⟨fun hl => List.mem_cons_of_mem _ (hf.1 hl),
                     fun hs => List.mem_cons_of_mem _ (hf.2 hs)⟩
        · refine ⟨pyStrip u :: vs',
            ((if (pyStrip u).length > 200 then [UrlIssue.veryLong i] else []) ++
              (if isSuspicious (pyStrip u) = true then [UrlIssue.suspicious i] else [])) ++ iss',
            ?_, ?_⟩
          · simp only [validateFrom]
            rw [if_neg hc, hp]
            simp only []
            rw [if_neg hsn, hrec]
          · intro j v hj hkeep
            cases j with
            | zero =>
              rw [List.getElem?_cons_zero, Option.some_inj] at hj
              subst hj
              constructor
              · intro hlong
                rw [if_pos hlong]
                simp
              · intro hsusp
                rw [if_pos hsusp]
                by_cases h200 : (pyStrip u).length > 200 <;> simp [h200]
            | succ j' =>
              rw [List.getElem?_cons_succ] at hj
              have hf := hflags j' v hj hkeep
              have hidx : (i + 1) + j' = i + (j' + 1) := by omega
              rw [hidx] at hf
              refine ⟨fun hl => ?_, fun hs => ?_⟩
              · exact List.mem_append_right _ (hf.1 hl)
              · exact List.mem_append_right _ (hf.2 hs)

/-! ## Properties of the ingestion poll loop -/

/-- A non-terminal query result (any status other than `COMPLETE`/`FAILED`,
or a service exception) makes the loop body continue. -/
theorem stepOutcome_nonterminal (q : QueryResult) (cont : WaitOutcome)
    (h : q.isTerminal = false) : stepOutcome q cont = cont := by
  cases q with
  | queryError msg => rfl
  | queryOk st rs =>
    simp only [QueryResult.isTerminal, Bool.or_eq_false_iff, beq_eq_false_iff_ne] at h
    simp [stepOutcome, h.1, h.2]

/-- The loop body yields `completed` only from a `COMPLETE` status or from
the continuation. -/
theorem stepOutcome_eq_completed (q : QueryResult) (cont : WaitOutcome)
    (h : stepOutcome q cont = WaitOutcome.completed) :
    (∃ rs, q = QueryResult.queryOk "COMPLETE" rs) ∨ cont = WaitOutcome.completed := by
  cases q with
  | queryError msg => exact Or.inr h
  | queryOk st rs =>
    simp only [stepOutcome] at h
    by_cases h1 : st = "COMPLETE"
    · exact Or.inl ⟨rs, by rw [h1]⟩
    · rw [if_neg h1] at h
      by_cases h2 : st = "FAILED"
      · rw [if_pos h2] at h
        exact absurd h (by simp)
      · rw [if_neg h2] at h
        exact Or.inr h

/-- The loop body yields `failedStatus rs` only from a `FAILED` status
whose failure reasons are `rs`, or from the continuation. -/
theorem stepOutcome_eq_failed (q : QueryResult) (cont : WaitOutcome) (rs : List String)
    (h : stepOutcome q cont = WaitOutcome.failedStatus rs) :
    q = QueryResult.queryOk "FAILED" rs ∨ cont = WaitOutcome.failedStatus rs := by
  cases q with
  | queryError msg => exact Or.inr h
  | queryOk st rs' =>
    simp only [stepOutcome] at h
    by_cases h1 : st = "COMPLETE"
    · rw [if_pos h1] at h
      exact absurd h (by simp)
    · rw [if_neg h1] at h
      by_cases h2 : st = "FAILED"
      · rw [if_pos h2] at h
        simp only [WaitOutcome.failedStatus.injEq] at h
        subst h2; subst h
        exact Or.inl rfl
      · rw [if_neg h2] at h
        exact Or.inr h

/-- The structural fuel of `waitFrom` is an artifact: any fuel large enough
that the timeout guard fails before the fuel runs out gives the same
result, so `waitForIngestionCompletion`'s choice of fuel is immaterial. -/
theorem waitFrom_fuel_irrelevant (query : Nat → QueryResult) (timeoutSecs : Nat) :
    ∀ (fuel k : Nat), timeoutSecs ≤ 30 * (k + fuel) →
      waitFrom query timeoutSecs k (fuel + 1) = waitFrom query timeoutSecs k fuel := by
  intro fuel
  induction fuel with
  | zero =>
    intro k hk
    have hg : ¬30 * k < timeoutSecs := by omega
    conv_lhs => rw [waitFrom]
    rw [if_neg hg, waitFrom]
  | succ fuel ih =>
    intro k hk
    have hrec := ih (k + 1) (by omega)
    by_cases hg : 30 * k < timeoutSecs
    · conv_lhs => rw [waitFrom]
      rw [if_pos hg, hrec]
      conv_rhs => rw [waitFrom]
      rw [if_pos hg]
    · conv_lhs => rw [waitFrom]
      rw [if_neg hg]
      conv_rhs => rw [waitFrom]
      rw [if_neg hg]

/-- The poll loop reports success only when some query inside the timeout
budget returned status `COMPLETE`. -/
theorem waitFrom_completed_queried (query : Nat → QueryResult) (timeoutSecs : Nat) :
    ∀ (fuel k : Nat), waitFrom query timeoutSecs k fuel = WaitOutcome.completed →
      ∃ j rs, k ≤ j ∧ 30 * j < timeoutSecs ∧ query j = QueryResult.queryOk "COMPLETE" rs := by
  intro fuel
  induction fuel with
  | zero =>
    intro k h
    exact absurd h (by simp [waitFrom])
  | succ fuel ih =>
    intro k h
    rw [waitFrom] at h
    by_cases hg : 30 * k < timeoutSecs
    · rw [if_pos hg] at h
      rcases stepOutcome_eq_completed _ _ h with ⟨rs, hq⟩ | hcont
      · exact ⟨k, rs, Nat.le_refl k, hg, hq⟩
      · obtain ⟨j, rs, hj1, hj2, hj3⟩ := ih (k + 1) hcont
        exact ⟨j, rs, by omega, hj2, hj3⟩
    · rw [if_neg hg] at h
      exact absurd h (by simp)

/-- The poll loop reports explicit failure only when some query inside the
timeout budget returned status `FAILED`, and the reported reasons are that
response's failure reasons. -/
theorem waitFrom_failed_queried (query : Nat → QueryResult) (timeoutSecs : Nat) :
    ∀ (fuel k : Nat) (rs : List String),
      waitFrom query timeoutSecs k fuel = WaitOutcome.failedStatus rs →
      ∃ j, k ≤ j ∧ 30 * j < timeoutSecs ∧ query j = QueryResult.queryOk "FAILED" rs := by
  intro fuel
  induction fuel with
  | zero =>
    intro k rs h
    exact absurd h (by simp [waitFrom])
  | succ fuel ih =>
    intro k rs h
    rw [waitFrom] at h
    by_cases hg : 30 * k < timeoutSecs
    · rw [if_pos hg] at h
      rcases stepOutcome_eq_failed _ _ _ h with hq | hcont
      · exact ⟨k, Nat.le_refl k, hg, hq⟩
      · obtain ⟨j, hj1, hj2, hj3⟩ := ih (k + 1) rs hcont
        exact ⟨j, by omega, hj2, hj3⟩
    · rw [if_neg hg] at h
      exact absurd h (by simp)

/-- A non-terminal status, or an exception from `get_ingestion_job`, makes
the loop sleep 30 seconds (the elapsed time moves from `30 * k` to
`30 * (k + 1)`) and poll again against the same timeout budget. -/
theorem waitFrom_step_nonterminal (query : Nat → QueryResult) (timeoutSecs k fuel : Nat)
    (hg : 30 * k < timeoutSecs) (hnt : (query k).isTerminal = false) :
    waitFrom query timeoutSecs k (fuel + 1) = waitFrom query timeoutSecs (k + 1) fuel := by
  rw [waitFrom, if_pos hg, stepOutcome_nonterminal _ _ hnt]

/-- When every query inside the timeout budget is non-terminal, the loop
times out. -/
theorem waitFrom_timedOut_of_nonterminal (query : Nat → QueryResult) (timeoutSecs : Nat)
    (hnt : ∀ j, 30 * j < timeoutSecs → (query j).isTerminal = false) :
    ∀ (fuel k : Nat), waitFrom query timeoutSecs k fuel = WaitOutcome.timedOut := by
  intro fuel
  induction fuel with
  | zero => intro k; rw [waitFrom]
  | succ fuel ih =>
    intro k
    by_cases hg : 30 * k < timeoutSecs
    · rw [waitFrom_step_nonterminal query timeoutSecs k fuel hg (hnt k hg)]
      exact ih (k + 1)
    · rw [waitFrom, if_neg hg]

/-! ## Concrete query traces used in witnesses and counterexamples -/

/-- A job that never leaves `IN_PROGRESS`. -/
def stallQuery : Nat → QueryResult := fun _ => QueryResult.queryOk "IN_PROGRESS" []

/-- A job that reports `FAILED` immediately, with one failure reason. -/
def failQuery : Nat → QueryResult := fun _ => QueryResult.queryOk "FAILED" ["crawl error"]

/-- A job that reports `COMPLETE` immediately. -/
def completeQuery : Nat → QueryResult := fun _ => QueryResult.queryOk "COMPLETE" []

/-! ## Claim theorems -/

/-- C7: for the input list
`["https://a.example/x", "https://a.example/x", "not-a-url", ""]`,
validation followed by deduplication yields exactly
`["https://a.example/x"]`. -/
theorem c7_concrete_validate_dedup :
    (validateAndCleanUrls ["https://a.example/x", "https://a.example/x", "not-a-url", ""]).map
      (fun r => deduplicate_urls r.1) = Except.ok ["https://a.example/x"] := rfl

/-- C3: the poll loop (1) reports success only when some query inside the
timeout budget returned status `COMPLETE`; (2) reports explicit failure
only when some query inside the budget returned `FAILED`, capturing that
response's failure reasons; (3) on a non-terminal status (`IN_PROGRESS`,
`STARTING` or any unknown value) or on an exception raised while querying,
it sleeps the fixed 30-second interval (elapsed time `30 * k` becomes
`30 * (k + 1)`) and polls again against the same timeout budget. -/
theorem c3_poll_loop_transitions (query : Nat → QueryResult) (timeoutSecs fuel k : Nat) :
    (waitFrom query timeoutSecs k fuel = WaitOutcome.completed →
       ∃ j rs, k ≤ j ∧ 30 * j < timeoutSecs ∧ query j = QueryResult.queryOk "COMPLETE" rs) ∧
    (∀ rs, waitFrom query timeoutSecs k fuel = WaitOutcome.failedStatus rs →
       ∃ j, k ≤ j ∧ 30 * j < timeoutSecs ∧ query j = QueryResult.queryOk "FAILED" rs) ∧
    (30 * k < timeoutSecs → (query k).isTerminal = false →
       waitFrom query timeoutSecs k (fuel + 1) = waitFrom query timeoutSecs (k + 1) fuel) :=
  ⟨waitFrom_completed_queried query timeoutSecs fuel k,
   fun rs h => waitFrom_failed_queried query timeoutSecs fuel k rs h,
   fun hg hnt => waitFrom_step_nonterminal query timeoutSecs k fuel hg hnt⟩

/-- Witness for C3 at concrete query traces. -/
theorem c3_poll_loop_transitions_witness :
    (∃ j rs, 0 ≤ j ∧ 30 * j < 1200 ∧ completeQuery j = QueryResult.queryOk "COMPLETE" rs) ∧
    (∃ j, 0 ≤ j ∧ 30 * j < 1200 ∧ failQuery j = QueryResult.queryOk "FAILED" ["crawl error"]) ∧
    waitFrom stallQuery 1200 0 (1 + 1) = waitFrom stallQuery 1200 (0 + 1) 1 :=
  ⟨(c3_poll_loop_transitions completeQuery 1200 1 0).1 rfl,
   (c3_poll_loop_transitions failQuery 1200 1 0).2.1 ["crawl error"] rfl,
   (c3_poll_loop_transitions stallQuery 1200 1 0).2.2 (by norm_num) rfl⟩

/-- C2 counterexample: the claim says the timeout outcome is distinct from
the outcome returned on an explicit `FAILED` status, but the function
returns the same value `False` in both cases (`return False` at the
`FAILED` branch and `return False` after the timeout; only the log text
differs).  Here one trace times out and another fails explicitly, yet the
returned booleans are equal. -/
theorem c2_counterexample :
    waitForIngestionCompletion stallQuery 20 = WaitOutcome.timedOut ∧
    waitForIngestionCompletion failQuery 20 = WaitOutcome.failedStatus ["crawl error"] ∧
    (waitForIngestionCompletion stallQuery 20).toBool =
      (waitForIngestionCompletion failQuery 20).toBool :=
  ⟨rfl, rfl, rfl⟩

/-- C2 as amended: when the 20-minute budget elapses with no terminal
status observed, the monitor exits through the timeout path and returns
`False` — the same value it returns on an explicit `FAILED` status; the
two cases are distinguished only in log output, not in the returned
outcome. -/
theorem c2_amended_timeout_same_return (query : Nat → QueryResult)
    (hnt : ∀ j, 30 * j < 20 * 60 → (query j).isTerminal = false) :
    waitForIngestionCompletion query 20 = WaitOutcome.timedOut ∧
    (waitForIngestionCompletion query 20).toBool = false ∧
    ∀ rs, (WaitOutcome.failedStatus rs).toBool = false := by
  have h : waitForIngestionCompletion query 20 = WaitOutcome.timedOut :=
    waitFrom_timedOut_of_nonterminal query (20 * 60) hnt (20 * 60) 0
  exact ⟨h, by rw [h]; rfl, fun rs => rfl⟩

/-- Witness for the amended C2 at a concrete stalled trace. -/
theorem c2_amended_timeout_same_return_witness :
    waitForIngestionCompletion stallQuery 20 = WaitOutcome.timedOut ∧
    (waitForIngestionCompletion stallQuery 20).toBool = false ∧
    ∀ rs, (WaitOutcome.failedStatus rs).toBool = false :=
  c2_amended_timeout_same_return stallQuery (fun _ _ => rfl)

/-- C9: starting from the connected state, both fixture loaders leave all
three audit signal handlers connected on every exit path — for any listing
outcome (including `os.listdir` raising) and any set of fixtures whose
`loaddata` raises, since the reconnects sit in a `finally:` block. -/
theorem c9_signal_handlers_reconnected (listing listing2 : Except String (List String))
    (raises raises2 : String → Bool) :
    loadDjangoFixturesFromDir listing raises SignalState.allConnected = SignalState.allConnected ∧
    (load_fixtures listing2 raises2 SignalState.allConnected).1 = SignalState.allConnected := by
  constructor
  · cases listing with
    | error e => rfl
    | ok files =>
      simp only [loadDjangoFixturesFromDir]
      split <;> rfl
  · rfl

/-- C6 counterexample: the claim says validation never raises and that a
URL is either dropped or retained, but `urlparse` raises
`ValueError("Invalid IPv6 URL")` on a URL whose authority contains an
unbalanced square bracket, and `_validate_and_clean_urls` calls it with no
exception handler, so validation itself raises on this input instead of
dropping or keeping the URL. -/
theorem c6_counterexample :
    validateAndCleanUrls ["http://[x/"] = Except.error "Invalid IPv6 URL" := rfl

/-- C6 as amended: validation trims each URL and drops it (without
aborting) exactly when the trimmed string is empty or lacks a scheme or a
host, while URLs over 200 characters and URLs matching the non-production
patterns are flagged as issues yet retained — and it never raises,
PROVIDED no URL's authority contains an unbalanced square bracket (such a
URL makes the underlying parser raise, aborting the run). -/
theorem c6_amended_validation (urls : List String)
    (hok : ∀ u ∈ urls, urlRaises (pyStrip u) = false) :
    ∃ iss, validateAndCleanUrls urls =
        Except.ok ((urls.map pyStrip).filter keepsCleanUrl, iss) ∧
      ∀ j u, urls[j]? = some u → keepsCleanUrl (pyStrip u) = true →
        pyStrip u ∈ (urls.map pyStrip).filter keepsCleanUrl ∧
        ((pyStrip u).length > 200 → UrlIssue.veryLong j ∈ iss) ∧
        (isSuspicious (pyStrip u) = true → UrlIssue.suspicious j ∈ iss) := by
  obtain ⟨vs, iss, hval, hflags⟩ := validateFrom_issues urls 0 hok
  have hvs : vs = (urls.map pyStrip).filter keepsCleanUrl :=
    validateFrom_ok_eq urls 0 vs iss hval
  refine ⟨iss, by rw [validateAndCleanUrls, ← hvs]; exact hval, ?_⟩
  intro j u hj hkeep
  have hflag := hflags j u hj hkeep
  rw [Nat.zero_add] at hflag
  have humem : u ∈ urls := by
    have := List.getElem?_eq_some.mp hj
    obtain ⟨hlt, hget⟩ := this
    exact hget ▸ List.getElem_mem hlt
  exact ⟨List.mem_filter.mpr ⟨List.mem_map_of_mem pyStrip humem, hkeep⟩, hflag.1, hflag.2⟩

/-- A 221-character URL used in the C6 witness. -/
def longUrl6 : String := "https://long.example/" ++ String.mk (List.replicate 200 'a')

/-- Input list for the C6 witness: a padded valid URL, an empty string, a
schemeless string, a suspicious host and an over-long URL. -/
def urls6 : List String :=
  ["  https://ok.example/a  ", "", "not-a-url", "https://test.example/b", longUrl6]

/-- Witness for the amended C6 at a concrete input list. -/
theorem c6_amended_validation_witness :
    ∃ iss, validateAndCleanUrls urls6 =
        Except.ok ((urls6.map pyStrip).filter keepsCleanUrl, iss) ∧
      ∀ j u, urls6[j]? = some u → keepsCleanUrl (pyStrip u) = true →
        pyStrip u ∈ (urls6.map pyStrip).filter keepsCleanUrl ∧
        ((pyStrip u).length > 200 → UrlIssue.veryLong j ∈ iss) ∧
        (isSuspicious (pyStrip u) = true → UrlIssue.suspicious j ∈ iss) :=
  c6_amended_validation urls6 (by decide)

/-- C5: under the precedence hypotheses (base directory exists, catalogue
is not `base`), the loader concatenates base URLs before catalogue URLs;
the validated list `vs` is an order-preserving projection of that
concatenation, and the final deduplicated list has no duplicates, is a
sublist of `vs` (order preserved), keeps exactly the URLs of `vs`, and
lists them in strictly increasing order of first occurrence (each URL is
kept at its first occurrence). -/
theorem c5_reconciler_first_seen_order (env : Env) (vs : List String) (iss : List UrlIssue)
    (hbase : env.baseDirExists = true) (hname : env.catalogueName ≠ "base")
    (hval : validateAndCleanUrls (env.baseUrls ++ env.catUrls) = Except.ok (vs, iss)) :
    allUrlsOf env = env.baseUrls ++ env.catUrls ∧
    vs = ((env.baseUrls ++ env.catUrls).map pyStrip).filter keepsCleanUrl ∧
    (deduplicate_urls vs).Nodup ∧
    (deduplicate_urls vs).Sublist vs ∧
    (∀ x, x ∈ deduplicate_urls vs ↔ x ∈ vs) ∧
    (deduplicate_urls vs).Pairwise (fun a b => vs.indexOf a < vs.indexOf b) := by
  have hall : allUrlsOf env = env.baseUrls ++ env.catUrls := by
    have hc : (env.baseDirExists && env.catalogueName != "base") = true := by
      rw [hbase]
      simp [hname]
    rw [allUrlsOf, hc]
    simp
  refine ⟨hall, validateFrom_ok_eq _ 0 vs iss hval, dedupAux_nodup vs [],
    dedupAux_sublist vs [], ?_, dedupAux_pairwise_indexOf vs []⟩
  intro x
  rw [deduplicate_urls, mem_dedupAux x vs []]
  simp

/-- Environment for the C5 witness: base and catalogue URL lists sharing a
duplicate URL. -/
def env5 : Env :=
  { catalogueName := "nist-800-53", catDirExists := true, baseDirExists := true,
    baseUrls := ["https://a.example/", "https://b.example/"],
    catUrls := ["https://a.example/", "https://c.example/"],
    listDataSources := Except.ok [], createDataSource := Except.ok "DS5",
    getDataSource := Except.error "unused", updateFirst := Except.ok (),
    updateSecond := Except.ok (), startJobResult := Except.ok "JOB5",
    jobQuery := completeQuery }

/-- The validated list of the C5 witness environment. -/
def vs5 : List String :=
  ["https://a.example/", "https://b.example/", "https://a.example/", "https://c.example/"]

/-- Witness for C5 at a concrete environment. -/
theorem c5_reconciler_first_seen_order_witness :
    allUrlsOf env5 = env5.baseUrls ++ env5.catUrls ∧
    vs5 = ((env5.baseUrls ++ env5.catUrls).map pyStrip).filter keepsCleanUrl ∧
    (deduplicate_urls vs5).Nodup ∧
    (deduplicate_urls vs5).Sublist vs5 ∧
    (∀ x, x ∈ deduplicate_urls vs5 ↔ x ∈ vs5) ∧
    (deduplicate_urls vs5).Pairwise (fun a b => vs5.indexOf a < vs5.indexOf b) :=
  c5_reconciler_first_seen_order env5 vs5 [] rfl (by decide) rfl

/-- C1: whenever the reconciled URL list exceeds the 3000-character budget,
`load_catalogue` fails as a whole (returns `False` on the reuse path,
raises on the create path) and issues no remote mutation at all — no
`create_data_source`, no `update_data_source`, no `start_ingestion_job`:
on the reuse path the budget check precedes every mutation, and on the
create path `_create_catalogue_data_source` re-checks the budget and
raises before calling `create_data_source`. -/
theorem c1_budget_blocks_all_mutations (env : Env) (vs : List String) (iss : List UrlIssue)
    (hval : validateAndCleanUrls (allUrlsOf env) = Except.ok (vs, iss))
    (hover : totalChars (deduplicate_urls vs) > 3000) :
    (load_catalogue env).1 ≠ LoadOutcome.ok ∧ (load_catalogue env).2 = [] := by
  have hrec : reconcileOf env = Except.ok (deduplicate_urls vs) := by
    rw [reconcileOf, hval]
  have hcreate : createCatalogueDataSource env = (Except.error (), []) := by
    simp [createCatalogueDataSource, hrec, hover]
  have hvs : vs = ((allUrlsOf env).map pyStrip).filter keepsCleanUrl :=
    validateFrom_ok_eq _ 0 vs iss hval
  have hne : (allUrlsOf env).isEmpty = false := by
    cases hA : allUrlsOf env with
    | nil =>
      exfalso
      rw [hA] at hvs
      simp only [List.map_nil, List.filter_nil] at hvs
      rw [hvs] at hover
      exact absurd hover (by decide)
    | cons a as => rfl
  by_cases hdir : env.catDirExists
  · cases hfind : findDataSourceByName env (dataSourceNameOf env) with
    | none =>
      have hload : load_catalogue env = (LoadOutcome.raised, []) := by
        simp [load_catalogue, hdir, getOrCreateCatalogueDataSource, hfind, hcreate]
      rw [hload]
      exact ⟨by simp, rfl⟩
    | some dsId =>
      have hload : load_catalogue env = (LoadOutcome.retFalse, []) := by
        simp [load_catalogue, hdir, getOrCreateCatalogueDataSource, hfind, hne, hval, hover]
      rw [hload]
      exact ⟨by simp, rfl⟩
  · have hload : load_catalogue env = (LoadOutcome.retFalse, []) := by
      simp [load_catalogue, hdir]
    rw [hload]
    exact ⟨by simp, rfl⟩

/-- Four 808-character URLs; together 3232 characters, over the budget. -/
def longUrlA : String := "https://a.example/" ++ String.mk (List.replicate 790 'a')

def longUrlB : String := "https://b.example/" ++ String.mk (List.replicate 790 'b')

def longUrlC : String := "https://c.example/" ++ String.mk (List.replicate 790 'c')

def longUrlD : String := "https://d.example/" ++ String.mk (List.replicate 790 'd')

/-- Environment for the C1 witness: the catalogue URL list totals 3232
characters and every remote call would succeed if reached. -/
def env1 : Env :=
  { catalogueName := "general", catDirExists := true, baseDirExists := false,
    baseUrls := [], catUrls := [longUrlA, longUrlB, longUrlC, longUrlD],
    listDataSources := Except.ok [], createDataSource := Except.ok "DS-NEW",
    getDataSource := Except.error "unused", updateFirst := Except.ok (),
    updateSecond := Except.ok (), startJobResult := Except.ok "JOB-1",
    jobQuery := completeQuery }

set_option maxRecDepth 8000 in
/-- Witness for C1 at a concrete over-budget environment. -/
theorem c1_budget_blocks_all_mutations_witness :
    (load_catalogue env1).1 ≠ LoadOutcome.ok ∧ (load_catalogue env1).2 = [] :=
  c1_budget_blocks_all_mutations env1 [longUrlA, longUrlB, longUrlC, longUrlD]
    [UrlIssue.veryLong 0, UrlIssue.veryLong 1, UrlIssue.veryLong 2, UrlIssue.veryLong 3]
    (by rfl) (by decide)

/-- C10: with an existing data source found by name, (1) the "No URLs
found" `False` return happens exactly when the raw concatenated list is
empty, with no remote mutation; and (2) when the raw list is non-empty but
validation rejects every URL, the load still proceeds: the final list is
empty, the 3000-character budget is trivially met, `update_data_source` is
issued with an empty seed-URL list, and the ingestion job is started. -/
theorem c10_all_rejected_still_proceeds (env : Env) (dsId : String)
    (hdir : env.catDirExists = true)
    (hfind : findDataSourceByName env (dataSourceNameOf env) = some dsId) :
    (allUrlsOf env = [] → load_catalogue env = (LoadOutcome.retFalse, [])) ∧
    (∀ (iss : List UrlIssue) (ds : RemoteDataSource) (web : WebConfiguration) (jobId : String),
      allUrlsOf env ≠ [] →
      validateAndCleanUrls (allUrlsOf env) = Except.ok ([], iss) →
      env.getDataSource = Except.ok ds →
      ds.config.dsType = "WEB" →
      ds.config.webConfiguration = some web →
      env.updateFirst = Except.ok () →
      env.startJobResult = Except.ok jobId →
      (load_catalogue env).2 =
        [Effect.updateDS (ds.name.getD ("fixtures-" ++ env.catalogueName ++ "-kb-source"))
          (ds.description.getD "Catalogue-specific data source"
            ++ " - Updated " ++ env.catalogueName ++ " URLs")
          { ds.config with webConfiguration := some { web with seedUrls := [] } },
         Effect.startJob dsId]) := by
  have hgoc : getOrCreateCatalogueDataSource env = (Except.ok dsId, []) := by
    simp [getOrCreateCatalogueDataSource, hfind]
  constructor
  · intro hempty
    simp [load_catalogue, hdir, hgoc, hempty]
  · intro iss ds web jobId hne hval hget htype hweb hupd1 hstart
    have hemp : (allUrlsOf env).isEmpty = false := by
      cases hA : allUrlsOf env with
      | nil => exact absurd hA hne
      | cons a as => rfl
    have hupd : updateDataSourceUrls env (deduplicate_urls []) =
        [Effect.updateDS (ds.name.getD ("fixtures-" ++ env.catalogueName ++ "-kb-source"))
          (ds.description.getD "Catalogue-specific data source"
            ++ " - Updated " ++ env.catalogueName ++ " URLs")
          { ds.config with webConfiguration := some { web with seedUrls := [] } }] := by
      simp [updateDataSourceUrls, hget, hweb, htype, hupd1, deduplicate_urls, dedupAux]
    have hbudget : ¬ totalChars (deduplicate_urls []) > 3000 := by decide
    by_cases hw : (waitForIngestionCompletion env.jobQuery 20).toBool <;>
      simp [load_catalogue, hdir, hgoc, hemp, hval, hbudget, hupd, hstart, hw]

/-- The remote data source of the C10/C4 witness environments. -/
def web10 : WebConfiguration := { seedUrls := ["https://old.example/"], rest := "crawler-config" }

def ds10 : RemoteDataSource :=
  { name := some "fixtures-general-kb-source",
    description := some "Catalogue-specific data source",
    config := { dsType := "WEB", webConfiguration := some web10, rest := "" } }

/-- Environment for the C10 witness: the only raw URL is invalid, an
existing data source is found, and update/start succeed. -/
def env10 : Env :=
  { catalogueName := "general", catDirExists := true, baseDirExists := false,
    baseUrls := [], catUrls := ["not-a-url"],
    listDataSources := Except.ok [("fixtures-general-kb-source", "DS1")],
    createDataSource := Except.ok "unused",
    getDataSource := Except.ok ds10, updateFirst := Except.ok (),
    updateSecond := Except.ok (), startJobResult := Except.ok "JOB1",
    jobQuery := completeQuery }

/-- Witness for C10 at a concrete environment whose raw list is non-empty
but fully rejected. -/
theorem c10_all_rejected_still_proceeds_witness :
    (load_catalogue env10).2 =
      [Effect.updateDS "fixtures-general-kb-source"
        "Catalogue-specific data source - Updated general URLs"
        { dsType := "WEB",
          webConfiguration := some { seedUrls := [], rest := "crawler-config" },
          rest := "" },
       Effect.startJob "DS1"] :=
  (c10_all_rejected_still_proceeds env10 "DS1" rfl rfl).2
    [UrlIssue.invalidFormat 0] ds10 web10 "JOB1" (by decide) rfl rfl rfl rfl rfl rfl

/-- Environment for C4: the first `update_data_source` call raises with
`vectorIngestionConfiguration` in its message, and so does the second. -/
def env4 : Env :=
  { catalogueName := "general", catDirExists := true, baseDirExists := false,
    baseUrls := [], catUrls := ["https://new.example/a"],
    listDataSources := Except.ok [("fixtures-general-kb-source", "DS123")],
    createDataSource := Except.ok "unused",
    getDataSource := Except.ok ds10,
    updateFirst := Except.error
      "ValidationException: Unknown parameter vectorIngestionConfiguration",
    updateSecond := Except.error
      "ValidationException: Unknown parameter vectorIngestionConfiguration",
    startJobResult := Except.ok "JOB-4",
    jobQuery := completeQuery }

/-- C4: when `update_data_source` rejects the update with
`vectorIngestionConfiguration` in the error message, the code does fetch
the current configuration, replace only the seed-URL sub-structure, and
resubmit with the name preserved and the description suffixed — but the
retry it then issues is byte-identical to the first request: nothing is
removed (the request never contained a `vectorIngestionConfiguration`
argument in the first place), even though the source logs "Trying update
without vectorIngestionConfiguration...".  When the retry also fails, the
run still proceeds to start the ingestion job.  This evaluates the model
at such a failing input: the two update requests are one and the same
`theRequest`, and the job is still started. -/
theorem c4_retry_is_identical_request :
    (let theRequest := Effect.updateDS "fixtures-general-kb-source"
        "Catalogue-specific data source - Updated general URLs"
        { dsType := "WEB",
          webConfiguration := some { seedUrls := ["https://new.example/a"], rest := "crawler-config" },
          rest := "" }
     updateDataSourceUrls env4 ["https://new.example/a"] = [theRequest, theRequest]) ∧
    (load_catalogue env4).1 = LoadOutcome.ok ∧
    Effect.startJob "DS123" ∈ (load_catalogue env4).2 :=
  ⟨rfl, rfl, by decide⟩

/-- Environment for C8: `list_data_sources` raises during data-source
resolution; creation would succeed. -/
def env8 : Env :=
  { catalogueName := "general", catDirExists := true, baseDirExists := false,
    baseUrls := [], catUrls := ["https://k.example/a"],
    listDataSources := Except.error "ConnectTimeoutError",
    createDataSource := Except.ok "DS-NEW-8",
    getDataSource := Except.error "unused", updateFirst := Except.ok (),
    updateSecond := Except.ok (), startJobResult := Except.ok "JOB-8",
    jobQuery := completeQuery }

/-- C8 counterexample: the claim says a listing error during data-source
resolution is treated as a transient, retry-eligible condition bounded by
the overall timeout; instead `_find_data_source_by_name` catches the
exception and returns `None`, so resolution concludes the data source does
not exist and immediately creates a new one — a remote mutation, not a
retry. -/
theorem c8_counterexample :
    env8.listDataSources = Except.error "ConnectTimeoutError" ∧
    findDataSourceByName env8 (dataSourceNameOf env8) = none ∧
    getOrCreateCatalogueDataSource env8 =
      (Except.ok "DS-NEW-8",
        [Effect.createDS "fixtures-general-kb-source" ["https://k.example/a"]]) :=
  ⟨rfl, rfl, rfl⟩

/-- C8 as amended: an error raised by `list_data_sources` during
data-source resolution is caught and logged inside
`_find_data_source_by_name`, which returns `None`; resolution therefore
behaves exactly as if no data source existed and proceeds to create a new
one.  The error is not retried. -/
theorem c8_amended_listing_error_means_not_found (env : Env) (msg : String)
    (h : env.listDataSources = Except.error msg) :
    findDataSourceByName env (dataSourceNameOf env) = none ∧
    getOrCreateCatalogueDataSource env = createCatalogueDataSource env := by
  have hfind : findDataSourceByName env (dataSourceNameOf env) = none := by
    rw [findDataSourceByName, h]
  exact ⟨hfind, by rw [getOrCreateCatalogueDataSource, hfind]⟩

/-- Witness for the amended C8 at a concrete erroring environment. -/
theorem c8_amended_listing_error_means_not_found_witness :
    findDataSourceByName env8 (dataSourceNameOf env8) = none ∧
    getOrCreateCatalogueDataSource env8 = createCatalogueDataSource env8 :=
  c8_amended_listing_error_means_not_found env8 "ConnectTimeoutError" rfl
